import Mathlib

/-
Verification of the AFMS (Advanced FMS) speed-advisory core of the bluesky
repository: a shallow embedding of `plugins/fms_mode.py` (class `Afms`), with
the route annotation arrays installed by `Afms._patch_route`, the per-cycle
advisory pass `Afms.preupdate`, the constraint/mode resolvers, the time-of-day
arithmetic `Afms._time_s2rta`, and the kinematic solver `Afms._rta_cas_wfl`
with its companion `Afms._eta_wfl`.

Conventions of the embedding:
- Python floats are embedded as `ℚ` (the source only performs field
  arithmetic), times-of-day as integer seconds-of-day (`ℤ`, in `[0, 86400)`).
- Genuinely raising code (calling `.strftime` on the `-1` no-constraint
  sentinel, or indexing `flightlevels[0]` in an empty profile) is embedded
  with `Option`: `none` is a raised exception.  The divisions inside the
  solver and ETA loops, by contrast, act on numpy float64 values and never
  raise: a zero denominator yields a non-finite float64 (`inf`/`nan`) that
  poisons every subsequent value of that computation (`inf`/`nan` never
  return to a finite value through the arithmetic these loops perform).
  The embedding tracks exact rationals while every value is finite and
  collapses a computation that has gone non-finite to the same `none`.
- External collaborators (the CAS/TAS conversions of `bluesky.tools.aero`,
  the geodesic distance `tools.geo.qdrdist`, the simulation clock `sim.utc`,
  and the cruise-phase constant of the legacy performance module), which are
  not among the sources, are passed in as an explicit `Ext` record of
  functions; concrete instances used for evaluation are modelled from the
  spec and marked as such.
-/

namespace Afms

/-- Update frequency of the plugin, `Afms.dt` (60 s). -/
def dt : ℚ := 60

/-- `Afms.skip2next_rta_time_s`: threshold (120 s) below which the engine
skips to the RTA beyond the active one. -/
def skip2next_rta_time_s : ℚ := 120

/-- `Afms.rta_standard_window_size`: default time-window size (60 s). -/
def rta_standard_window_size : ℚ := 60

/-- `Afms._time_s2rta`, restricted to its actual inputs (two times of day as
seconds in `[0, 86400)`).  Python computes `strptime(target) - strptime(now)`;
for inputs in range the resulting `timedelta` has `days = -1` exactly when the
naive difference `d` is negative, in which case its `seconds` field is the
positive-normalised `d + 86400` and the source returns `tdelta.seconds - 86400`;
otherwise it returns `tdelta.seconds = d`. -/
def time_s2rta (target now : ℤ) : ℤ :=
  let d := target - now
  if d < 0 then (d + 86400) - 86400 else d

/-- Lift `time_s2rta` to the stored constraint slot: the source stores `-1`
(an `int`) when a waypoint has no RTA, and `Afms._time_s2rta` then crashes on
`time2.strftime` (`AttributeError`); `none` embeds that crash. -/
def time_s2rta_opt (now : ℤ) : Option ℤ → Option ℤ
  | none => none
  | some t => some (time_s2rta t now)

/-- `next((index for index, value in enumerate(l) if isinstance(value, time)), -1)`:
index of the first entry holding a time constraint (`some`), if any. -/
def findRtaIdx : List (Option ℤ) → Option ℕ
  | [] => none
  | some _ :: _ => some 0
  | none :: rest => (findRtaIdx rest).map (· + 1)

/-- `next((index for index, value in reversed(list(enumerate(l)))) if value != 1), -1)`
followed by reading `l[index]`: the last entry different from `1` (CONTINUE),
if any. -/
def findLastNonContinue : List ℤ → Option ℤ
  | [] => none
  | m :: rest =>
      match findLastNonContinue rest with
      | some x => some x
      | none => if m ≠ 1 then some m else none

/-- Reverse scan of `wpown` entries for the last value `>= 0`
(`Afms._current_own_spd` inner generator). -/
def findLastOwn : List ℚ → Option ℚ
  | [] => none
  | x :: rest =>
      match findLastOwn rest with
      | some y => some y
      | none => if x ≥ 0 then some x else none

/-- The route object read by the engine: the base waypoint arrays of
`bluesky.traffic.route.Route` together with the four advisory annotation
arrays installed by `Afms._patch_route` (`wprta`, `wprta_window_size`,
`wpfms_mode`, `wpown`).  `wprta` entries are `some t` for a `datetime.time`
constraint and `none` for the `-1.` no-constraint sentinel. -/
structure Route where
  iactwp : ℕ := 0
  wpname : List ℕ := []
  wplat : List ℚ := []
  wplon : List ℚ := []
  wpalt : List ℚ := []
  wpdistto : List ℚ := []
  wprta : List (Option ℤ) := []
  wprta_window_size : List ℚ := []
  wpfms_mode : List ℤ := []
  wpown : List ℚ := []
deriving Repr

/-- Per-vehicle state read from the `traf` container. -/
structure Vehicle where
  id : String
  phase : ℤ
  lat : ℚ
  lon : ℚ
  alt : ℚ
  cas : ℚ
  route : Route
deriving Repr

/-- External collaborators of the core (conversions, geodesy, clock), per the
spec assumed as functions with stable numeric contracts. -/
structure Ext where
  vcas2tas : ℚ → ℚ → ℚ
  vmach2cas : ℚ → ℚ → ℚ
  qdrdist : ℚ → ℚ → ℚ → ℚ → ℚ
  utc : ℤ

/-- Modelled from the spec: `PHASE['CR']` of the legacy performance module
(not among the sources); only equality with a vehicle's phase is ever used,
so the concrete numeral carries no information. -/
def PHASE_CR : ℤ := 3

/-- A command pushed onto the bluesky stack by the engine: `SPD acid value`
(value in knots or raw Mach, exactly as the source formats it) or
`VNAV acid ON`. -/
inductive Cmd where
  | spd (acid : String) (value : ℚ)
  | vnav (acid : String)
deriving DecidableEq, Repr

/-- `Afms._current_fms_mode`: reverse-scan `wpfms_mode[:iactwp]` for the last
mode different from CONTINUE; `0` (OFF) when none. -/
def current_fms_mode (r : Route) : ℤ :=
  (findLastNonContinue (r.wpfms_mode.take r.iactwp)).getD 0

/-- `Afms._current_own_spd`: reverse-scan `wpown[:iactwp]` for the last value
`>= 0`; `-1` (no own speed specified) when none. -/
def current_own_spd (r : Route) : ℚ :=
  (findLastOwn (r.wpown.take r.iactwp)).getD (-1)

/-- `Afms._current_rta`: first time constraint at or after the active
waypoint; `(-1, -1, none)` when none exists ahead. -/
def current_rta (wprta : List (Option ℤ)) (iact : ℕ) : ℤ × ℤ × Option ℤ :=
  let tail := wprta.drop iact
  match findRtaIdx tail with
  | some i => ((iact : ℤ), (iact : ℤ) + i, tail.getD i none)
  | none => (-1, -1, none)

/-- `Afms._current_rta_plus_one`: the constraint beyond the active one,
scanning `wprta[last_index_active_rta + 1:]`; falls back to the active
constraint when no further one exists. -/
def current_rta_plus_one (wprta : List (Option ℤ)) (iact : ℕ) : ℤ × ℤ × Option ℤ :=
  let cur := current_rta wprta iact
  let tail2 := wprta.drop (cur.2.1 + 1).toNat
  match findRtaIdx tail2 with
  | some j => (cur.1, cur.2.1 + 1 + j, tail2.getD j none)
  | none => cur

/-- `Afms._current_tw_size`: the window size stored at the active constraint's
waypoint; the literal default `60.0` when no constraint exists ahead. -/
def current_tw_size (r : Route) : ℤ × ℤ × ℚ :=
  let tail := r.wprta.drop r.iactwp
  match findRtaIdx tail with
  | some i => ((r.iactwp : ℤ), (r.iactwp : ℤ) + i, (r.wprta_window_size.drop r.iactwp).getD i 0)
  | none => (-1, -1, 60)

/-- Python slice `l[a:b]` for the non-negative bounds the source uses
(`l[i0+1 : i1+1]` with `i0, i1 ≥ 0`). -/
def pyslice (l : List ℚ) (a b : ℤ) : List ℚ :=
  (l.drop a.toNat).take (b - a).toNat

/-- `l[i]` for the in-range non-negative indices the source reaches (a Python
out-of-range access would raise; no claim touches one). -/
def qGetD (l : List ℚ) (i : ℤ) : ℚ :=
  l.getD i.toNat 0

/-- The distance/altitude profile block that `Afms.preupdate` builds three
times (lines 224-231, 243-247 and 265-273): direct distance to the next
waypoint followed by the stored leg distances up to the constrained waypoint,
and the current altitude followed by the stored waypoint altitudes. -/
def mkProfile (ext : Ext) (v : Vehicle) (i0 i1 : ℤ) : List ℚ × List ℚ :=
  let dist2nwp := ext.qdrdist v.lat v.lon (qGetD v.route.wplat i0) (qGetD v.route.wplon i0)
  (dist2nwp :: pyslice v.route.wpdistto (i0 + 1) (i1 + 1),
   v.alt :: pyslice v.route.wpalt (i0 + 1) (i1 + 1))

/-- Per-segment times of `Afms._eta_wfl`: each segment is flown at
`vcas2tas(cas, fl)` where a negative flight level falls back to
`previous_fl_m` — which the source initialises to `flightlevels[0]` and never
updates inside the loop, so the fallback is always the first entry.  A zero
true airspeed makes the float64 division non-finite (`inf`/`nan`), and the
summed ETA with it; such a non-finite ETA is collapsed to `none`. -/
def etaSteps (v2t : ℚ → ℚ → ℚ) (fl0 cas : ℚ) : List (ℚ × ℚ) → Option (List ℚ)
  | [] => some []
  | (d, fl) :: rest =>
      let nfl := if fl < 0 then fl0 else fl
      let tas := v2t cas nfl
      if tas = 0 then none
      else (etaSteps v2t fl0 cas rest).map (fun ts => d * 1852 / tas :: ts)

/-- `Afms._eta_wfl`: total flying time of the profile at a constant CAS.
An empty flight-level list would crash on `flightlevels[0]`. -/
def eta_wfl (v2t : ℚ → ℚ → ℚ) (distances flightlevels : List ℚ) (cas : ℚ) : Option ℚ :=
  match flightlevels with
  | [] => none
  | fl0 :: _ => (etaSteps v2t fl0 cas (distances.zip flightlevels)).map List.sum

/-- First-segment time of one `Afms._rta_cas_wfl` iteration (lines 538-554):
one acceleration (`1.94/2`) or deceleration (`-1.265/2`) transient when the
estimated CAS differs from the current CAS by more than 1 m/s. -/
def rtaFirstSeg (est curCas curTas ntas dM : ℚ) : ℚ :=
  if est > curCas + 1 then
    let a : ℚ := 97 / 100
    let dts := (ntas - curTas) / a
    let dd := a / 2 * dts ^ 2 + curTas * dts
    (dM - dd) / ntas + dts
  else if est < curCas - 1 then
    let a : ℚ := -(1265 / 2000)
    let dts := (-ntas + curTas) / a
    let dd := a / 2 * dts ^ 2 + curTas * dts
    (dM - dd) / ntas + dts
  else (dM - 0) / ntas + 0

/-- Segment times of one `Afms._rta_cas_wfl` iteration: the first segment gets
the transient treatment, later segments are pure `distance / tas` (identical
to `etaSteps` at the estimated CAS, including the fixed `previous_fl_m`
fallback).  A zero true airspeed makes the segment time non-finite
(float64 `inf`/`nan`), collapsed to `none`. -/
def rtaIterTimes (v2t : ℚ → ℚ → ℚ) (fl0 curCas curTas est : ℚ) :
    List (ℚ × ℚ) → Option (List ℚ)
  | [] => some []
  | (d, fl) :: rest =>
      let nfl := if fl < 0 then fl0 else fl
      let ntas := v2t est nfl
      if ntas = 0 then none
      else (etaSteps v2t fl0 est rest).map
        (fun ts => rtaFirstSeg est curCas curTas ntas (d * 1852) :: ts)

/-- One iteration of the `Afms._rta_cas_wfl` fixed-point loop: sum the segment
times and rescale `estimated_cas * total_time_s / time_s`.  The numerator is
an `np.float64` (`np.sum` over a float64 array), so `time_s = 0` does not
raise: it yields a non-finite estimate (`inf`, or `nan` when the numerator is
0), which every later iteration keeps non-finite; a non-finite estimate is
collapsed to `none`. -/
def rtaStep (v2t : ℚ → ℚ → ℚ) (fl0 curCas curTas timeS : ℚ) (segs : List (ℚ × ℚ))
    (est : ℚ) : Option ℚ :=
  match rtaIterTimes v2t fl0 curCas curTas est segs with
  | none => none
  | some ts => if timeS = 0 then none else some (est * ts.sum / timeS)

/-- `Afms._rta_cas_wfl`: three fixed-point iterations from the current CAS;
the returned value is `cas_rta_m_s`, the estimate entering the final
iteration.  The final iteration only recomputes the then-discarded
`estimated_cas_m_s`; being all-float64 it can neither raise nor change the
returned value, so it is not modelled.  An empty flight-level list raises
(`flightlevels[0]`, `none`); a non-finite returned estimate is `none`. -/
def rta_cas_wfl (v2t : ℚ → ℚ → ℚ) (distances flightlevels : List ℚ)
    (timeS curCas : ℚ) : Option ℚ :=
  match flightlevels with
  | [] => none
  | fl0 :: _ =>
      let curTas := v2t curCas fl0
      let segs := distances.zip flightlevels
      match rtaStep v2t fl0 curCas curTas timeS segs curCas with
      | none => none
      | some e1 => rtaStep v2t fl0 curCas curTas timeS segs e1

/-- Preferred-speed resolution of the TW branch (`Afms.preupdate` lines
249-258): no resolved own speed (`< 0`) falls back to the vehicle's current
CAS; a value `< 1` is a Mach number converted at the current altitude; a value
`≥ 1` is a CAS in m/s used directly. -/
def twPreferredCas (ext : Ext) (v : Vehicle) : ℚ :=
  let own := current_own_spd v.route
  if own < 0 then v.cas
  else if own < 1 then ext.vmach2cas own v.alt
  else own

/-- TW-branch pipeline up to the window evaluation (`Afms.preupdate` lines
237-277): locate the active constraint, build the profile, compute the
preferred-speed ETA and the seconds to the RTA; when the ETA is below the
skip threshold, relocate to the constraint beyond the active one and
recompute profile, time and ETA (the window size is not recomputed).
Returns the profile, the preferred ETA and the seconds-to-RTA actually used. -/
def twEval (ext : Ext) (v : Vehicle) : Option (List ℚ × List ℚ × ℚ × ℚ) :=
  let ir := current_rta v.route.wprta v.route.iactwp
  let pr := mkProfile ext v ir.1 ir.2.1
  let pref := twPreferredCas ext v
  match eta_wfl ext.vcas2tas pr.1 pr.2 pref with
  | none => none
  | some etaP =>
      match time_s2rta_opt ext.utc ir.2.2 with
      | none => none
      | some t =>
          if etaP < skip2next_rta_time_s then
            let ir2 := current_rta_plus_one v.route.wprta v.route.iactwp
            match time_s2rta_opt ext.utc ir2.2.2 with
            | none => none
            | some t2 =>
                let pr2 := mkProfile ext v ir2.1 ir2.2.1
                match eta_wfl ext.vcas2tas pr2.1 pr2.2 pref with
                | none => none
                | some etaP2 => some (pr2.1, pr2.2, etaP2, (t2 : ℚ))
          else some (pr.1, pr.2, etaP, (t : ℚ))

/-- Window clamping and command emission of the TW branch (`Afms.preupdate`
lines 278-290), with the window size `tw` located once at line 238. -/
def twBranchCore (ext : Ext) (v : Vehicle) (tw : ℚ) : Option (List Cmd) :=
  match twEval ext v with
  | none => none
  | some (dists, fls, etaP, t) =>
      let earliest := t - tw / 2
      let latest := t + tw / 2
      let kopt :=
        if etaP < earliest then
          (rta_cas_wfl ext.vcas2tas dists fls earliest v.cas).map (· * 3600 / 1852)
        else if etaP > latest then
          (rta_cas_wfl ext.vcas2tas dists fls latest v.cas).map (· * 3600 / 1852)
        else some (twPreferredCas ext v * 3600 / 1852)
      kopt.map (fun k => [Cmd.spd v.id k, Cmd.vnav v.id])

/-- The complete TW branch (`Afms.preupdate` lines 236-290). -/
def twBranch (ext : Ext) (v : Vehicle) : Option (List Cmd) :=
  twBranchCore ext v (current_tw_size v.route).2.2

/-- The OWN branch (`Afms.preupdate` lines 205-214): no command when no own
speed is resolved (only a printed diagnostic); a Mach value (`< 1`) is pushed
raw; otherwise m/s is converted to knots. -/
def ownBranch (v : Vehicle) : List Cmd :=
  let own := current_own_spd v.route
  if own < 0 then []
  else if own < 1 then [Cmd.spd v.id own, Cmd.vnav v.id]
  else [Cmd.spd v.id (own * 3600 / 1852), Cmd.vnav v.id]

/-- The RTA branch (`Afms.preupdate` lines 215-235): locate the constraint,
skip to the next one when fewer than `skip2next_rta_time_s` seconds remain,
build the profile and push the solver's CAS converted to knots. -/
def rtaBranch (ext : Ext) (v : Vehicle) : Option (List Cmd) :=
  let ir := current_rta v.route.wprta v.route.iactwp
  match time_s2rta_opt ext.utc ir.2.2 with
  | none => none
  | some t0 =>
      let nxt :=
        if (t0 : ℚ) < skip2next_rta_time_s then
          let ir2 := current_rta_plus_one v.route.wprta v.route.iactwp
          (time_s2rta_opt ext.utc ir2.2.2).map (fun t1 => (ir2, t1))
        else some (ir, t0)
      match nxt with
      | none => none
      | some (irf, t) =>
          let pr := mkProfile ext v irf.1 irf.2.1
          match rta_cas_wfl ext.vcas2tas pr.1 pr.2 (t : ℚ) v.cas with
          | none => none
          | some c => some [Cmd.spd v.id (c * 3600 / 1852), Cmd.vnav v.id]

/-- One vehicle of the `Afms.preupdate` pass: commands pushed for it plus
the early-return message of the unrecognized-mode branch (line 292), `none`
embedding a raised exception. -/
def processVehicle (ext : Ext) (v : Vehicle) : Option (List Cmd × Option String) :=
  if v.phase = PHASE_CR then
    let m := current_fms_mode v.route
    if m = 0 then some ([], none)
    else if m = 1 then some ([], none)
    else if m = 2 then some (ownBranch v, none)
    else if m = 3 then (rtaBranch ext v).map (fun cs => (cs, none))
    else if m = 4 then (twBranch ext v).map (fun cs => (cs, none))
    else some ([], some ("AFMS mode does not exist" ++ v.id))
  else some ([], none)

/-- The `Afms.preupdate` pass over all vehicles, in order: the `return` of
the unrecognized-mode branch terminates the whole loop, so vehicles after
the offending one are not processed that cycle. -/
def preupdate (ext : Ext) : List Vehicle → Option (List Cmd × Option String)
  | [] => some ([], none)
  | v :: rest =>
      match processVehicle ext v with
      | none => none
      | some (cs, some e) => some (cs, some e)
      | some (cs, none) =>
          match preupdate ext rest with
          | none => none
          | some (cs2, e2) => some (cs ++ cs2, e2)

/-- The per-waypoint data added by the base route's `addwpt_data` /
`_del_wpt_data` for one waypoint.  Modelled from the spec: the base
`bluesky.traffic.route.Route` is not among the sources; per the spec it keeps
ordered parallel waypoint arrays mutated by insert/overwrite/delete at an
index, mirrored here by one representative payload per base array. -/
structure WpData where
  name : ℕ
  lat : ℚ
  lon : ℚ
  alt : ℚ
  distto : ℚ
deriving Repr

/-- The patched `Route.addwpt_data` (`Afms._patch_route` lines 165-178): the
base operation inserts (or overwrites) the waypoint in every base array, and
the patch applies the identical operation at the identical index to the four
advisory arrays, writing the documented defaults (`-1.` no-rta, the standard
window size, CONTINUE, `-1` inherit-own-speed). -/
def addwpt_data (r : Route) (overwrt : Bool) (wpidx : ℕ) (w : WpData) : Route :=
  if overwrt then
    { r with
      wpname := r.wpname.set wpidx w.name
      wplat := r.wplat.set wpidx w.lat
      wplon := r.wplon.set wpidx w.lon
      wpalt := r.wpalt.set wpidx w.alt
      wpdistto := r.wpdistto.set wpidx w.distto
      wprta := r.wprta.set wpidx none
      wprta_window_size := r.wprta_window_size.set wpidx rta_standard_window_size
      wpfms_mode := r.wpfms_mode.set wpidx 1
      wpown := r.wpown.set wpidx (-1) }
  else
    { r with
      wpname := r.wpname.insertIdx wpidx w.name
      wplat := r.wplat.insertIdx wpidx w.lat
      wplon := r.wplon.insertIdx wpidx w.lon
      wpalt := r.wpalt.insertIdx wpidx w.alt
      wpdistto := r.wpdistto.insertIdx wpidx w.distto
      wprta := r.wprta.insertIdx wpidx none
      wprta_window_size := r.wprta_window_size.insertIdx wpidx rta_standard_window_size
      wpfms_mode := r.wpfms_mode.insertIdx wpidx 1
      wpown := r.wpown.insertIdx wpidx (-1) }

/-- The patched `Route._del_wpt_data` (`Afms._patch_route` lines 180-189):
the base deletion plus `del` of the same index in the four advisory arrays. -/
def del_wpt_data (r : Route) (wpidx : ℕ) : Route :=
  { r with
    wpname := r.wpname.eraseIdx wpidx
    wplat := r.wplat.eraseIdx wpidx
    wplon := r.wplon.eraseIdx wpidx
    wpalt := r.wpalt.eraseIdx wpidx
    wpdistto := r.wpdistto.eraseIdx wpidx
    wprta := r.wprta.eraseIdx wpidx
    wprta_window_size := r.wprta_window_size.eraseIdx wpidx
    wpfms_mode := r.wpfms_mode.eraseIdx wpidx
    wpown := r.wpown.eraseIdx wpidx }

/-- One structural route edit: `addwpt_data` with `overwrt` false (insert) or
true (overwrite), or `_del_wpt_data` (delete). -/
inductive RouteOp where
  | add (overwrt : Bool) (wpidx : ℕ) (w : WpData)
  | del (wpidx : ℕ)
deriving Repr

/-- Apply one route edit. -/
def applyOp (r : Route) : RouteOp → Route
  | .add o i w => addwpt_data r o i w
  | .del i => del_wpt_data r i

/-- Apply a sequence of route edits in order. -/
def applyOps (r : Route) (ops : List RouteOp) : Route :=
  ops.foldl applyOp r

/-- The parallel-array invariant of the four advisory annotation arrays:
each has the length of the waypoint sequence. -/
def advisoryArraysAligned (r : Route) : Prop :=
  r.wprta.length = r.wpname.length ∧
  r.wprta_window_size.length = r.wpname.length ∧
  r.wpfms_mode.length = r.wpname.length ∧
  r.wpown.length = r.wpname.length

/-- Modelled from the spec: the external CAS→TAS conversion of
`bluesky.tools.aero` (not among the sources); the spec only requires a stable
numeric contract in which the conversion depends on altitude, embodied here
as a simple monotone altitude factor. -/
def vcas2tas_model (cas h : ℚ) : ℚ :=
  cas * (1 + h / 20000)

/-- Modelled from the spec: the external Mach→CAS conversion of
`bluesky.tools.aero` (not among the sources); any stable numeric contract
serves, none of the settled claims depends on its values. -/
def vmach2cas_model (mach h : ℚ) : ℚ :=
  mach * (300 + h / 1000)

/-- Modelled from the spec: per-segment ETA times under the spec's reading of
the flight-level hold — `flight_levels[i] < 0` means "hold the previous
segment's altitude", i.e. the nearest preceding resolved level, which this
variant threads through the recursion (unlike the source, which keeps
`previous_fl_m` fixed at `flightlevels[0]`). -/
def etaStepsSpec (v2t : ℚ → ℚ → ℚ) (cas : ℚ) : ℚ → List (ℚ × ℚ) → Option (List ℚ)
  | _, [] => some []
  | prevFl, (d, fl) :: rest =>
      let nfl := if fl < 0 then prevFl else fl
      let tas := v2t cas nfl
      if tas = 0 then none
      else (etaStepsSpec v2t cas nfl rest).map (fun ts => d * 1852 / tas :: ts)

/-- Modelled from the spec: `eta_for_cas` with the spec's hold-previous
flight-level rule (companion to `etaStepsSpec`). -/
def eta_wfl_spec (v2t : ℚ → ℚ → ℚ) (distances flightlevels : List ℚ) (cas : ℚ) : Option ℚ :=
  match flightlevels with
  | [] => none
  | fl0 :: _ => (etaStepsSpec v2t cas fl0 (distances.zip flightlevels)).map List.sum

/-- Modelled from the spec: segment times of one solver iteration with the
spec's hold-previous flight-level rule. -/
def rtaIterTimesSpec (v2t : ℚ → ℚ → ℚ) (curCas curTas est prevFl : ℚ) :
    List (ℚ × ℚ) → Option (List ℚ)
  | [] => some []
  | (d, fl) :: rest =>
      let nfl := if fl < 0 then prevFl else fl
      let ntas := v2t est nfl
      if ntas = 0 then none
      else (etaStepsSpec v2t est nfl rest).map
        (fun ts => rtaFirstSeg est curCas curTas ntas (d * 1852) :: ts)

/-- Modelled from the spec: one solver iteration with the spec's
flight-level rule (non-finite results collapsed to `none`, as in
`rtaStep`). -/
def rtaStepSpec (v2t : ℚ → ℚ → ℚ) (curCas curTas timeS prevFl : ℚ) (segs : List (ℚ × ℚ))
    (est : ℚ) : Option ℚ :=
  match rtaIterTimesSpec v2t curCas curTas est prevFl segs with
  | none => none
  | some ts => if timeS = 0 then none else some (est * ts.sum / timeS)

/-- Modelled from the spec: `solve_cas_for_time_budget` with the spec's
hold-previous flight-level rule, otherwise identical to `rta_cas_wfl`
(two effective rescales, the estimate entering the final iteration
returned). -/
def rta_cas_wfl_spec (v2t : ℚ → ℚ → ℚ) (distances flightlevels : List ℚ)
    (timeS curCas : ℚ) : Option ℚ :=
  match flightlevels with
  | [] => none
  | fl0 :: _ =>
      let curTas := v2t curCas fl0
      let segs := distances.zip flightlevels
      match rtaStepSpec v2t curCas curTas timeS fl0 segs curCas with
      | none => none
      | some e1 => rtaStepSpec v2t curCas curTas timeS fl0 segs e1

/-- Concrete external collaborators for evaluation: the modelled conversions,
a constant great-circle distance of `100000/1852` nm (100 km) to the next
waypoint, and a clock reading of 1000 s past midnight. -/
def extA : Ext :=
  { vcas2tas := vcas2tas_model
    vmach2cas := vmach2cas_model
    qdrdist := fun _ _ _ _ => 100000 / 1852
    utc := 1000 }

/-- A two-waypoint route in TW mode from waypoint 0, active waypoint 1, an
RTA at waypoint 1 (`rtaT` seconds past midnight, window size `ws1`), and no
own speed set anywhere. -/
def routeTW (rtaT : ℤ) (ws1 : ℚ) : Route :=
  { iactwp := 1
    wpname := [0, 1]
    wplat := [0, 0]
    wplon := [0, 0]
    wpalt := [0, 0]
    wpdistto := [0, 54]
    wprta := [none, some rtaT]
    wprta_window_size := [60, ws1]
    wpfms_mode := [4, 1]
    wpown := [-1, -1] }

/-- TW vehicle whose preferred-speed ETA (1000 s) lies beyond the latest
window bound (RTA in 130 s, window 60 s). -/
def vLate : Vehicle :=
  { id := "AC1", phase := PHASE_CR, lat := 0, lon := 0, alt := 0, cas := 100
    route := routeTW 1130 60 }

/-- TW vehicle whose preferred-speed ETA (1000 s) lies inside the window
(RTA in 1000 s, window 60 s). -/
def vInside : Vehicle :=
  { id := "AC1", phase := PHASE_CR, lat := 0, lon := 0, alt := 0, cas := 100
    route := routeTW 2000 60 }

/-- Single-waypoint route whose resolved advisory mode is `m`. -/
def routeMode (m : ℤ) : Route :=
  { iactwp := 1
    wpname := [0]
    wplat := [0]
    wplon := [0]
    wpalt := [0]
    wpdistto := [0]
    wprta := [none]
    wprta_window_size := [60]
    wpfms_mode := [m]
    wpown := [150] }

/-- Cruise vehicle whose resolved mode `7` is unrecognized. -/
def vBad : Vehicle :=
  { id := "BAD1", phase := PHASE_CR, lat := 0, lon := 0, alt := 0, cas := 100
    route := routeMode 7 }

/-- Cruise vehicle in OWN mode with an own CAS of 150 m/s set. -/
def vOwn : Vehicle :=
  { id := "OK1", phase := PHASE_CR, lat := 0, lon := 0, alt := 0, cas := 100
    route := routeMode 2 }

/-- Concrete external collaborators with a short 1000 m distance to the next
waypoint, so that a preferred-speed ETA falls below the skip threshold. -/
def extB : Ext :=
  { vcas2tas := vcas2tas_model
    vmach2cas := vmach2cas_model
    qdrdist := fun _ _ _ _ => 1000 / 1852
    utc := 1000 }

/-- Three-waypoint TW route with an imminent constraint at waypoint 1 and a
further constraint at waypoint 2 whose stored window size is `ws2`. -/
def routeSkip (ws2 : ℚ) : Route :=
  { iactwp := 1
    wpname := [0, 1, 2]
    wplat := [0, 0, 0]
    wplon := [0, 0, 0]
    wpalt := [0, 0, 0]
    wpdistto := [0, 5, 7]
    wprta := [none, some 1010, some 1200]
    wprta_window_size := [60, 40, ws2]
    wpfms_mode := [4, 1, 1]
    wpown := [-1, -1, -1] }

/-- TW vehicle that skips ahead to the constraint at waypoint 2 (preferred
ETA 10 s is below the 120 s threshold). -/
def vSkip (ws2 : ℚ) : Vehicle :=
  { id := "AC3", phase := PHASE_CR, lat := 0, lon := 0, alt := 0, cas := 100
    route := routeSkip ws2 }

/- ------------------------------------------------------------------ -/
/- Helper lemmas                                                      -/
/- ------------------------------------------------------------------ -/

theorem findRtaIdx_eq_none_iff (l : List (Option ℤ)) :
    findRtaIdx l = none ↔ l.any Option.isSome = false := by
  induction l with
  | nil => simp [findRtaIdx]
  | cons hd tl ih =>
      cases hd with
      | none => simpa [findRtaIdx] using ih
      | some t => simp [findRtaIdx]

theorem findLastOwn_eq_none (l : List ℚ) (h : ∀ x ∈ l, x < 0) :
    findLastOwn l = none := by
  induction l with
  | nil => rfl
  | cons x rest ih =>
      have hx : x < 0 := h x (List.mem_cons_self x rest)
      have hrest : findLastOwn rest = none := ih fun y hy => h y (List.mem_cons_of_mem x hy)
      simp [findLastOwn, hrest, not_le.mpr hx]

theorem rtaIterTimes_self (v2t : ℚ → ℚ → ℚ) (fl0 curCas curTas : ℚ)
    (segs : List (ℚ × ℚ)) :
    rtaIterTimes v2t fl0 curCas curTas curCas segs = etaSteps v2t fl0 curCas segs := by
  cases segs with
  | nil => rfl
  | cons hd tl =>
      obtain ⟨d, fl⟩ := hd
      have h1 : ¬ (curCas > curCas + 1) := by linarith
      have h2 : ¬ (curCas < curCas - 1) := by linarith
      simp [rtaIterTimes, etaSteps, rtaFirstSeg, h1, h2]

theorem length_insertIdx_congr {α β : Type} (n : ℕ) (a : α) (b : β) :
    ∀ (l₁ : List α) (l₂ : List β), l₁.length = l₂.length →
      (l₁.insertIdx n a).length = (l₂.insertIdx n b).length := by
  induction n with
  | zero => intro l₁ l₂ h; simp [List.insertIdx, List.modifyTailIdx, h]
  | succ n ih =>
      intro l₁ l₂ h
      cases l₁ with
      | nil =>
          cases l₂ with
          | nil => rfl
          | cons y ys => simp at h
      | cons x xs =>
          cases l₂ with
          | nil => simp at h
          | cons y ys =>
              simp only [List.insertIdx, List.modifyTailIdx, List.length_cons] at h ⊢
              have := ih xs ys (by omega)
              simp only [List.insertIdx] at this
              omega

theorem length_eraseIdx_congr {α β : Type} (n : ℕ) :
    ∀ (l₁ : List α) (l₂ : List β), l₁.length = l₂.length →
      (l₁.eraseIdx n).length = (l₂.eraseIdx n).length := by
  induction n with
  | zero =>
      intro l₁ l₂ h
      cases l₁ <;> cases l₂ <;> simp_all [List.eraseIdx]
  | succ n ih =>
      intro l₁ l₂ h
      cases l₁ with
      | nil => cases l₂ with
        | nil => rfl
        | cons y ys => simp at h
      | cons x xs =>
          cases l₂ with
          | nil => simp at h
          | cons y ys =>
              simp only [List.eraseIdx, List.length_cons] at h ⊢
              exact congrArg Nat.succ (ih xs ys (by omega))

theorem aligned_applyOp (r : Route) (op : RouteOp)
    (h : advisoryArraysAligned r) : advisoryArraysAligned (applyOp r op) := by
  obtain ⟨h1, h2, h3, h4⟩ := h
  cases op with
  | add overwrt i w =>
      cases overwrt with
      | false =>
          simp only [applyOp, addwpt_data, advisoryArraysAligned, Bool.false_eq_true,
            if_false]
          exact ⟨length_insertIdx_congr i _ _ _ _ h1, length_insertIdx_congr i _ _ _ _ h2,
                 length_insertIdx_congr i _ _ _ _ h3, length_insertIdx_congr i _ _ _ _ h4⟩
      | true =>
          simp only [applyOp, addwpt_data, advisoryArraysAligned, eq_self_iff_true,
            if_true, List.length_set]
          exact ⟨h1, h2, h3, h4⟩
  | del i =>
      simp only [applyOp, del_wpt_data, advisoryArraysAligned]
      exact ⟨length_eraseIdx_congr i _ _ h1, length_eraseIdx_congr i _ _ h2,
             length_eraseIdx_congr i _ _ h3, length_eraseIdx_congr i _ _ h4⟩

/- ------------------------------------------------------------------ -/
/- Claim theorems                                                     -/
/- ------------------------------------------------------------------ -/

/-- C1: `seconds_until(T, T) = 0` for every time of day `T` holds, but for a
target just past midnight seen from just before midnight the source returns
the negatively wrapped value: `time_s2rta` at target `00:00:01` (1 s) and
current `23:59:59` (86399 s) evaluates to `-86398`, not to the claimed
wraparound value `2`. -/
theorem time_s2rta_midnight :
    (∀ t : ℤ, time_s2rta t t = 0) ∧ time_s2rta 1 86399 = -86398 := by
  constructor
  · intro t
    simp [time_s2rta]
  · decide

/-- C2: the kinematic solver has no clamping for non-positive time budgets:
a zero budget executes the float64 division by zero in the rescale and
returns a non-finite speed (`nan`/`inf`, collapsed to `none`) that the engine
would push as `SPD nan`, and a negative budget returns a negative CAS
(here about `-2114 m/s`). -/
theorem solver_nonpositive_budget :
    rta_cas_wfl vcas2tas_model [10] [0] 0 100 = none ∧
    (rta_cas_wfl vcas2tas_model [10] [0] (-100) 100).getD 0 < 0 := by
  norm_num [rta_cas_wfl, rtaStep, rtaIterTimes, rtaFirstSeg, etaSteps, vcas2tas_model]

/-- C4: the flight-level hold diverges from the nearest-preceding-altitude
rule: with profile distances `[1, 1, 1]` nm and flight levels
`[1000, 2000, -1]`, both `eta_for_cas` and the solver evaluate the third
segment at `flightlevels[0] = 1000` (the source never updates
`previous_fl_m` inside its loops), so they differ from the spec-modelled
variants that hold the nearest preceding altitude `2000`. -/
theorem flightlevel_hold_divergence :
    eta_wfl vcas2tas_model [1, 1, 1] [1000, 2000, -1] 100 = some (12038 / 231) ∧
    eta_wfl_spec vcas2tas_model [1, 1, 1] [1000, 2000, -1] 100 = some (59264 / 1155) ∧
    ((12038 / 231 : ℚ) ≠ 59264 / 1155) ∧
    rta_cas_wfl vcas2tas_model [1, 1, 1] [1000, 2000, -1] 100 100 ≠
      rta_cas_wfl_spec vcas2tas_model [1, 1, 1] [1000, 2000, -1] 100 100 := by
  refine ⟨?_, ?_, ?_, ?_⟩ <;>
    norm_num [eta_wfl, eta_wfl_spec, rta_cas_wfl, rta_cas_wfl_spec, rtaStep, rtaStepSpec,
      rtaIterTimes, rtaIterTimesSpec, rtaFirstSeg, etaSteps, etaStepsSpec, vcas2tas_model]

/-- C5 (counterexample): at the degenerate profile with one zero-length
segment and time budget `0`, the current CAS satisfies the budget exactly
(`eta_for_cas = 0`), yet the solver's rescale computes the float64 `0.0 / 0`,
so it returns the non-finite `nan` (collapsed to `none`) — not a value within
0.5 m/s of the current CAS. -/
theorem solver_fixed_point_ctrex :
    eta_wfl vcas2tas_model [0] [0] 100 = some 0 ∧
    rta_cas_wfl vcas2tas_model [0] [0] 0 100 = none := by
  norm_num [eta_wfl, rta_cas_wfl, rtaStep, rtaIterTimes, rtaFirstSeg, etaSteps,
    vcas2tas_model]

/-- C5 (amended): for every conversion function and profile, if the current
CAS meets a nonzero time budget exactly (via `eta_for_cas`), the solver
returns exactly the current CAS after its three iterations — a difference of
0, below the claimed 0.5 m/s tolerance. -/
theorem solver_fixed_point (v2t : ℚ → ℚ → ℚ) (ds fls : List ℚ) (T cas : ℚ)
    (h1 : eta_wfl v2t ds fls cas = some T) (h2 : T ≠ 0) :
    rta_cas_wfl v2t ds fls T cas = some cas := by
  cases fls with
  | nil => simp [eta_wfl] at h1
  | cons fl0 rest =>
      simp only [eta_wfl] at h1
      obtain ⟨ts, hts, hsum⟩ := Option.map_eq_some'.mp h1
      have hstep : rtaStep v2t fl0 cas (v2t cas fl0) T ((ds.zip (fl0 :: rest))) cas
          = some cas := by
        simp only [rtaStep, rtaIterTimes_self, hts]
        rw [if_neg h2, hsum, mul_div_cancel_right₀ cas h2]
      simp only [rta_cas_wfl, hstep]

/-- C5 (witness): on a 100 km single-segment sea-level profile at 100 m/s,
the ETA is exactly 1000 s and the solver called with that budget returns
exactly 100 m/s. -/
theorem solver_fixed_point_witness :
    rta_cas_wfl vcas2tas_model [25000 / 463] [0] 1000 100 = some 100 :=
  solver_fixed_point vcas2tas_model [25000 / 463] [0] 1000 100
    (by norm_num [eta_wfl, etaSteps, vcas2tas_model]) (by norm_num)

/-- C6 (counterexample): with a single constrained waypoint and no further
constraint, `locate_next_constraint_after` returns the original constraint,
whose index equals (is not greater than) its input `end_index`, refuting the
claimed "never returns an index ≤ its input". -/
theorem rta_plus_one_ctrex :
    current_rta [some 100] 0 = (0, 0, some 100) ∧
    current_rta_plus_one [some 100] 0 = (0, 0, some 100) ∧
    (current_rta_plus_one [some 100] 0).2.1 ≤ (current_rta [some 100] 0).2.1 := by
  decide

/-- C6 (amended): the constraint index returned by
`locate_next_constraint_after` is never smaller than the active constraint's
index; it is strictly greater exactly when a further constrained waypoint
exists past it, and otherwise the original constraint triple is returned
unchanged. -/
theorem rta_plus_one_skips (wprta : List (Option ℤ)) (iact : ℕ) :
    (current_rta wprta iact).2.1 ≤ (current_rta_plus_one wprta iact).2.1 ∧
    ((wprta.drop ((current_rta wprta iact).2.1 + 1).toNat).any Option.isSome = true →
      (current_rta wprta iact).2.1 < (current_rta_plus_one wprta iact).2.1) ∧
    ((wprta.drop ((current_rta wprta iact).2.1 + 1).toNat).any Option.isSome = false →
      current_rta_plus_one wprta iact = current_rta wprta iact) := by
  simp only [current_rta_plus_one]
  cases hf : findRtaIdx (wprta.drop ((current_rta wprta iact).2.1 + 1).toNat) with
  | none =>
      dsimp only
      have hany := (findRtaIdx_eq_none_iff _).mp hf
      refine ⟨le_refl _, fun ht => ?_, fun _ => rfl⟩
      rw [hany] at ht
      exact absurd ht (by simp)
  | some j =>
      dsimp only
      refine ⟨by omega, fun _ => by omega, fun hfalse => ?_⟩
      rw [(findRtaIdx_eq_none_iff _).mpr hfalse] at hf
      exact absurd hf (by simp)

/-- C6 (witness): with constraints at indices 1 and 3 and cursor 0, the
active constraint ends at index 1 and the skip-ahead locator returns index 3,
strictly beyond it. -/
theorem rta_plus_one_skips_witness :
    (current_rta [none, some 5, none, some 8] 0).2.1 <
      (current_rta_plus_one [none, some 5, none, some 8] 0).2.1 :=
  (rta_plus_one_skips [none, some 5, none, some 8] 0).2.1 (by decide)

/-- C8: the four advisory annotation arrays keep the length of the waypoint
sequence under every sequence of insert, overwrite and delete route edits. -/
theorem advisory_arrays_stay_aligned (ops : List RouteOp) (r : Route)
    (h : advisoryArraysAligned r) : advisoryArraysAligned (applyOps r ops) := by
  induction ops generalizing r with
  | nil => exact h
  | cons op rest ih => exact ih (applyOp r op) (aligned_applyOp r op h)

/-- C8 (witness): starting from the empty route, an insert, a second insert,
an overwrite and a delete leave the four advisory arrays aligned with the
waypoint sequence. -/
theorem advisory_arrays_stay_aligned_witness :
    advisoryArraysAligned (applyOps {}
      [.add false 0 ⟨0, 1, 2, 3, 4⟩, .add false 1 ⟨1, 5, 6, 7, 8⟩,
       .add true 0 ⟨2, 9, 10, 11, 12⟩, .del 0]) :=
  advisory_arrays_stay_aligned
    [.add false 0 ⟨0, 1, 2, 3, 4⟩, .add false 1 ⟨1, 5, 6, 7, 8⟩,
     .add true 0 ⟨2, 9, 10, 11, 12⟩, .del 0] {} ⟨rfl, rfl, rfl, rfl⟩

/-- C3 (counterexample): a TW vehicle whose preferred-speed ETA (1000 s) lies
beyond the latest bound (160 s) is commanded the solver's output for the
latest bound, but that commanded CAS flies the profile in about 66.1 s —
outside `[earliest, latest] = [100, 160]` by ~34 s, more than half the whole
60 s window, violating the claimed tolerance-bounded containment. -/
theorem tw_window_clamping_ctrex :
    eta_wfl vcas2tas_model [25000 / 463] [0] (twPreferredCas extA vLate) = some 1000 ∧
    (1000 : ℚ) > 130 + 60 / 2 ∧
    twBranch extA vLate = some [Cmd.spd "AC1" (528328125 / 179644), Cmd.vnav "AC1"] ∧
    eta_wfl vcas2tas_model [25000 / 463] [0] (528328125 / 179644 * 1852 / 3600) =
      some (248320 / 3757) ∧
    (248320 / 3757 : ℚ) < 130 - 60 / 2 := by
  refine ⟨?_, by norm_num, ?_, ?_, by norm_num⟩ <;>
    norm_num [twBranch, twBranchCore, twEval, extA, vLate, routeTW, current_rta, findRtaIdx,
      mkProfile, qGetD, pyslice, twPreferredCas, current_own_spd, findLastOwn, eta_wfl,
      etaSteps, vcas2tas_model, time_s2rta_opt, time_s2rta, skip2next_rta_time_s,
      current_rta_plus_one, current_tw_size, rta_cas_wfl, rtaStep, rtaIterTimes, rtaFirstSeg]

/-- C3 (amended): with the TW pipeline's located profile, preferred ETA and
time-to-RTA in hand, the emitted command is the preferred CAS unmodified when
the ETA lies inside `[earliest, latest]`, and otherwise the solver's output
for the violated bound; no containment of the resulting ETA is guaranteed. -/
theorem tw_window_clamping (ext : Ext) (v : Vehicle) (dists fls : List ℚ) (etaP t : ℚ)
    (h : twEval ext v = some (dists, fls, etaP, t))
    (h0 : 0 ≤ (current_tw_size v.route).2.2) :
    ((t - (current_tw_size v.route).2.2 / 2 ≤ etaP ∧
      etaP ≤ t + (current_tw_size v.route).2.2 / 2) →
      twBranch ext v =
        some [Cmd.spd v.id (twPreferredCas ext v * 3600 / 1852), Cmd.vnav v.id]) ∧
    (etaP < t - (current_tw_size v.route).2.2 / 2 →
      twBranch ext v =
        (rta_cas_wfl ext.vcas2tas dists fls (t - (current_tw_size v.route).2.2 / 2) v.cas).map
          (fun c => [Cmd.spd v.id (c * 3600 / 1852), Cmd.vnav v.id])) ∧
    (etaP > t + (current_tw_size v.route).2.2 / 2 →
      twBranch ext v =
        (rta_cas_wfl ext.vcas2tas dists fls (t + (current_tw_size v.route).2.2 / 2) v.cas).map
          (fun c => [Cmd.spd v.id (c * 3600 / 1852), Cmd.vnav v.id])) := by
  simp only [twBranch, twBranchCore, h]
  refine ⟨fun hin => ?_, fun hlt => ?_, fun hgt => ?_⟩
  · rw [if_neg (not_lt.mpr hin.1), if_neg (not_lt.mpr hin.2)]
    rfl
  · rw [if_pos hlt, Option.map_map]
    rfl
  · have hne : ¬ (etaP < t - (current_tw_size v.route).2.2 / 2) := by linarith
    rw [if_neg hne, if_pos hgt, Option.map_map]
    rfl

/-- C3 (witness): a TW vehicle whose preferred ETA (1000 s) lies inside the
window `[970, 1030]` is commanded its preferred CAS converted to knots
(100 m/s = 90000/463 kts), unmodified. -/
theorem tw_window_clamping_witness :
    twBranch extA vInside = some [Cmd.spd "AC1" (90000 / 463), Cmd.vnav "AC1"] := by
  have h := (tw_window_clamping extA vInside [25000 / 463] [0] 1000 1000
      (by norm_num [twEval, extA, vInside, routeTW, current_rta, findRtaIdx, mkProfile,
        qGetD, pyslice, twPreferredCas, current_own_spd, findLastOwn, eta_wfl, etaSteps,
        vcas2tas_model, time_s2rta_opt, time_s2rta, skip2next_rta_time_s,
        current_rta_plus_one])
      (by norm_num [current_tw_size, vInside, routeTW, findRtaIdx])).1
    (by norm_num [current_tw_size, vInside, routeTW, findRtaIdx])
  rw [h]
  norm_num [twPreferredCas, current_own_spd, findLastOwn, extA, vInside, routeTW]

/-- C7 (counterexample): a cruise vehicle with unrecognized resolved mode 7
aborts the whole advisory pass: processed alone, the OWN-mode vehicle behind
it receives its speed command, but placed after the offender it receives
nothing that cycle. -/
theorem pass_abort_ctrex :
    preupdate extA [vBad, vOwn] = some ([], some "AFMS mode does not existBAD1") ∧
    preupdate extA [vOwn] = some ([Cmd.spd "OK1" (135000 / 463), Cmd.vnav "OK1"], none) := by
  refine ⟨?_, ?_⟩ <;>
    · norm_num [preupdate, processVehicle, extA, vBad, vOwn, routeMode, current_fms_mode,
        findLastNonContinue, PHASE_CR, ownBranch, current_own_spd, findLastOwn]
      try rfl

/-- C7 (amended): the vehicles before the first cruise vehicle with an
unrecognized resolved mode are fully evaluated and keep their commands; the
offending vehicle is reported by name and receives no command; the pass then
terminates, so the vehicles after it are not evaluated at all that cycle
(the result does not depend on them). -/
theorem pass_aborts_at_unrecognized (ext : Ext) (pre : List Vehicle) (v : Vehicle)
    (post : List Vehicle) (cs : List Cmd)
    (hpre : preupdate ext pre = some (cs, none))
    (hph : v.phase = PHASE_CR)
    (hm0 : current_fms_mode v.route ≠ 0) (hm1 : current_fms_mode v.route ≠ 1)
    (hm2 : current_fms_mode v.route ≠ 2) (hm3 : current_fms_mode v.route ≠ 3)
    (hm4 : current_fms_mode v.route ≠ 4) :
    preupdate ext (pre ++ v :: post) =
      some (cs, some ("AFMS mode does not exist" ++ v.id)) := by
  induction pre generalizing cs with
  | nil =>
      simp only [preupdate] at hpre
      obtain rfl : ([] : List Cmd) = cs := by simpa using hpre
      simp [preupdate, processVehicle, hph, hm0, hm1, hm2, hm3, hm4]
  | cons w rest ih =>
      simp only [List.cons_append, preupdate] at hpre ⊢
      cases hw : processVehicle ext w with
      | none => rw [hw] at hpre; simp at hpre
      | some p =>
          obtain ⟨cw, e⟩ := p
          cases e with
          | some err => rw [hw] at hpre; dsimp only at hpre; simp at hpre
          | none =>
              rw [hw] at hpre
              dsimp only at hpre ⊢
              cases hr : preupdate ext rest with
              | none => rw [hr] at hpre; simp at hpre
              | some q =>
                  obtain ⟨cs2, e2⟩ := q
                  rw [hr] at hpre
                  dsimp only at hpre
                  obtain ⟨h1, h2⟩ : cw ++ cs2 = cs ∧ e2 = none := by simpa using hpre
                  subst h2
                  subst h1
                  have hih : preupdate ext (rest.append (v :: post)) =
                      some (cs2, some ("AFMS mode does not exist" ++ v.id)) := ih cs2 hr
                  simp only [hih]

/-- C7 (witness): with a commanded OWN-mode vehicle ahead of the offender and
another behind it, the pass keeps the first vehicle's commands, reports the
offender, and returns without touching the trailing vehicle. -/
theorem pass_aborts_witness :
    preupdate extA ([vOwn] ++ vBad :: [vOwn]) =
      some ([Cmd.spd "OK1" (135000 / 463), Cmd.vnav "OK1"],
        some ("AFMS mode does not exist" ++ vBad.id)) :=
  pass_aborts_at_unrecognized extA [vOwn] vBad [vOwn]
    [Cmd.spd "OK1" (135000 / 463), Cmd.vnav "OK1"]
    (by norm_num [preupdate, processVehicle, extA, vOwn, routeMode, current_fms_mode,
      findLastNonContinue, PHASE_CR, ownBranch, current_own_spd, findLastOwn])
    rfl (by norm_num [current_fms_mode, vBad, routeMode, findLastNonContinue])
    (by norm_num [current_fms_mode, vBad, routeMode, findLastNonContinue])
    (by norm_num [current_fms_mode, vBad, routeMode, findLastNonContinue])
    (by norm_num [current_fms_mode, vBad, routeMode, findLastNonContinue])
    (by norm_num [current_fms_mode, vBad, routeMode, findLastNonContinue])

/-- C9: in TW mode, when every own-speed entry before the active waypoint is
negative (the absent sentinel, so the resolver yields -1), the preferred
speed used for the ETA and window evaluation is the vehicle's current CAS. -/
theorem tw_preferred_fallback (ext : Ext) (v : Vehicle)
    (h : ∀ x ∈ v.route.wpown.take v.route.iactwp, x < 0) :
    twPreferredCas ext v = v.cas := by
  have hown : current_own_spd v.route = -1 := by
    unfold current_own_spd
    rw [findLastOwn_eq_none _ h]
    rfl
  norm_num [twPreferredCas, hown]

/-- C9 (witness): the TW vehicle with no own speed set anywhere uses its
current CAS of 100 m/s as the preferred speed (and, per the evaluation in
the C3 scenario theorems, still receives a speed command). -/
theorem tw_preferred_fallback_witness :
    twPreferredCas extA vLate = 100 :=
  tw_preferred_fallback extA vLate
    (by intro x hx; simp [vLate, routeTW] at hx; simp [hx])

/-- C10: the TW branch reads the window-size array only at the originally
located constraint's index: two routes that agree everywhere except on
`wprta_window_size`, and agree on that array at the active constraint's
position, produce identical TW commands — in particular the window stored at
a skipped-to constraint is never consulted. -/
theorem tw_window_not_relocated (ext : Ext) (v : Vehicle) (ws2 : List ℚ)
    (h : ∀ j, findRtaIdx (v.route.wprta.drop v.route.iactwp) = some j →
      (ws2.drop v.route.iactwp).getD j 0 =
        (v.route.wprta_window_size.drop v.route.iactwp).getD j 0) :
    twBranch ext { v with route := { v.route with wprta_window_size := ws2 } } =
      twBranch ext v := by
  have e1 : ({ v.route with wprta_window_size := ws2 } : Route).wprta = v.route.wprta := rfl
  have e2 : ({ v.route with wprta_window_size := ws2 } : Route).iactwp = v.route.iactwp := rfl
  have e3 : ({ v.route with wprta_window_size := ws2 } : Route).wprta_window_size = ws2 := rfl
  have hts : current_tw_size { v.route with wprta_window_size := ws2 }
      = current_tw_size v.route := by
    simp only [current_tw_size, e1, e2, e3]
    cases hf : findRtaIdx (v.route.wprta.drop v.route.iactwp) with
    | none => rfl
    | some j => simpa using h j hf
  simp only [twBranch, hts]
  rfl

/-- C10 (witness): in the skip-ahead scenario (preferred ETA 10 s, active
constraint at waypoint 1, skipped-to constraint at waypoint 2), changing the
window size stored at the skipped-to waypoint from 500 s to 7 s leaves the
emitted TW command unchanged. -/
theorem tw_window_not_relocated_witness :
    twBranch extB { vSkip 500 with route := { (vSkip 500).route with
        wprta_window_size := [60, 40, 7] } } = twBranch extB (vSkip 500) := by
  apply tw_window_not_relocated
  intro j hj
  have hj0 : j = 0 := by
    have h0 : findRtaIdx ((vSkip 500).route.wprta.drop (vSkip 500).route.iactwp)
        = some 0 := by rfl
    rw [h0] at hj
    exact (Option.some.inj hj).symm
  subst hj0
  rfl

end Afms
